import Mathlib

/-!
Verification development for the CSV chat backend (`backend/csv_agent.py`,
`backend/main.py`): a shallow embedding of the dataset model, the heuristic
query resolver, the column analyzer, the three tools with their fallback-path
logic, and the LangGraph conversation loop, together with theorems about the
behaviour of those functions.

Modelling conventions:
* pandas dataframes are embedded as `Dataset`: an ordered list of named
  columns, each either numeric (cells `Option Q`, `none` = NaN) or
  categorical (cells `Option String`, `none` = NaN).
* Python floats are embedded as exact rationals `Q` (a numerator/denominator
  pair, not normalized; every value the code builds from data has a positive
  denominator).  Binary floating point rounding is abstracted away.
* `str.lower` is modelled on ASCII letters (`lowerChar`); the Python
  behaviour on non-ASCII code points is not modelled.
* Python's `needle in haystack` substring test is `substrB`.
* The file system is a `FsModel`: which paths exist, and what dataset a path
  parses to (`none` = exists but unparsable, mirroring a pandas parse error).
-/

/-- ASCII lower-casing of one character (model of Python `str.lower` on the
ASCII range). -/
def lowerChar (c : Char) : Char :=
  if c.toNat ≥ 65 ∧ c.toNat ≤ 90 then Char.ofNat (c.toNat + 32) else c

/-- Model of Python `s.lower()`. -/
def lowerStr (s : String) : String := String.mk (s.data.map lowerChar)

/-- Does the first list occur as a prefix of the second? -/
def startsWithL : List Char → List Char → Bool
  | [], _ => true
  | _ :: _, [] => false
  | a :: as, b :: bs => a == b && startsWithL as bs

/-- Does `pat` occur as a contiguous sublist of the second list? -/
def containsSub : List Char → List Char → Bool
  | pat, [] => pat.isEmpty
  | pat, c :: rest => startsWithL pat (c :: rest) || containsSub pat rest

/-- Model of Python `needle in hay` on strings. -/
def substrB (needle hay : String) : Bool := containsSub needle.data hay.data

/-- Exact rational number with explicit (unnormalized) numerator and
denominator: the embedding of a Python/NumPy float value.  All values built
by the embedded code from dataset cells have a positive denominator. -/
structure Q where
  n : Int
  d : Int
deriving DecidableEq, Repr

/-- Embed an integer. -/
def Q.ofInt (i : Int) : Q := ⟨i, 1⟩

/-- Addition (no normalization). -/
def Q.add (a b : Q) : Q := ⟨a.n * b.d + b.n * a.d, a.d * b.d⟩

/-- Subtraction (no normalization). -/
def Q.sub (a b : Q) : Q := ⟨a.n * b.d - b.n * a.d, a.d * b.d⟩

/-- Multiplication (no normalization). -/
def Q.mul (a b : Q) : Q := ⟨a.n * b.n, a.d * b.d⟩

/-- Division by a natural number (used for means: `sum / count`). -/
def Q.divNat (a : Q) (k : Nat) : Q := ⟨a.n, a.d * k⟩

/-- Division by a rational (used only inside the Newton iteration). -/
def Q.divQ (a b : Q) : Q := ⟨a.n * b.d, a.d * b.n⟩

/-- Comparison, valid for positive-denominator representatives. -/
def Q.leB (a b : Q) : Bool := decide (a.n * b.d ≤ b.n * a.d)

/-- Floor of a rational with positive denominator. -/
def Q.floorQ (q : Q) : Int := Int.fdiv q.n q.d

/-- Round `q` to the nearest integer, ties to even (the rounding of Python's
fixed-point string formatting, idealized to exact rationals). -/
def roundHalfEven (q : Q) : Int :=
  let f := q.floorQ
  let r := q.n - f * q.d
  if 2 * r < q.d then f
  else if 2 * r > q.d then f + 1
  else if f % 2 = 0 then f else f + 1

/-- Two-digit zero-padded rendering of `k < 100`. -/
def twoDigits (k : Nat) : String :=
  (if k < 10 then "0" else "") ++ toString k

/-- Model of Python `f"{x:.2f}"` for a finite value: the decimal rendering of
`x` rounded to two fractional digits.  (The sign of a negative zero is not
modelled.) -/
def fixed2 (q : Q) : String :=
  let m := roundHalfEven ⟨100 * q.n, q.d⟩
  (if m < 0 then "-" else "") ++ toString (m.natAbs / 100) ++ "." ++ twoDigits (m.natAbs % 100)

/-- Model of Python `f"{x:.2f}"` where `none` stands for NaN. -/
def fixed2O : Option Q → String
  | none => "nan"
  | some q => fixed2 q

/-- One column's cells: numeric (float) or categorical (object) dtype, with
`none` for a missing value (NaN). -/
inductive ColData where
  | numeric (vals : List (Option Q))
  | categorical (vals : List (Option String))
deriving DecidableEq

/-- Is the column of a numeric dtype (model of
`pd.api.types.is_numeric_dtype`)? -/
def isNumericCol : ColData → Bool
  | .numeric _ => true
  | .categorical _ => false

/-- Number of cells in the column. -/
def colLen : ColData → Nat
  | .numeric vals => vals.length
  | .categorical vals => vals.length

/-- Number of missing cells (model of `col.isna().sum()`). -/
def missingCount : ColData → Nat
  | .numeric vals => (vals.filter (fun v => v = none)).length
  | .categorical vals => (vals.filter (fun v => v = none)).length

/-- A loaded dataframe: ordered named columns. -/
structure Dataset where
  cols : List (String × ColData)
deriving DecidableEq

/-- Column names in table order (model of `df.columns.tolist()`). -/
def Dataset.columnNames (df : Dataset) : List String := df.cols.map (fun c => c.1)

/-- Row count (model of `len(df)`); all columns of a dataframe have the same
length, so the first column's length is taken. -/
def Dataset.nrows (df : Dataset) : Nat :=
  match df.cols with
  | [] => 0
  | c :: _ => colLen c.2

/-- Column count (model of `df.shape[1]`). -/
def Dataset.ncols (df : Dataset) : Nat := df.cols.length

/-- First-seen-order deduplication; `seen` holds the values already emitted. -/
def dedupSeen {α : Type} [DecidableEq α] (seen : List α) : List α → List α
  | [] => []
  | x :: xs => if x ∈ seen then dedupSeen seen xs else x :: dedupSeen (x :: seen) xs

/-- The non-missing cells of a numeric column (pandas aggregations skip NaN). -/
def nonMissing (vals : List (Option Q)) : List Q := vals.filterMap id

/-- Sum of a list of rationals. -/
def qSum (xs : List Q) : Q := xs.foldl Q.add (Q.ofInt 0)

/-- Maximum of a nonempty list (`none` for the empty list; model of
`df[col].max()`, which is NaN on an all-missing column). -/
def qMaxL : List Q → Option Q
  | [] => none
  | x :: rest => some (rest.foldl (fun a b => if Q.leB a b then b else a) x)

/-- Minimum of a nonempty list (`none` for the empty list). -/
def qMinL : List Q → Option Q
  | [] => none
  | x :: rest => some (rest.foldl (fun a b => if Q.leB b a then b else a) x)

/-- Model of the four aggregate computations of `query_csv_data`
(lines 197–204 of `csv_agent.py`): each skips missing values; the mean of an
empty column is NaN (`none`). -/
def aggValue (op : String) (vals : List (Option Q)) : Option Q :=
  let xs := nonMissing vals
  if op = "sum" then some (qSum xs)
  else if op = "mean" ∨ op = "average" then
    (if xs.length = 0 then none else some ((qSum xs).divNat xs.length))
  else if op = "max" then qMaxL xs
  else if op = "min" then qMinL xs
  else none

/-- Rendering of one numeric cell for the unique-values listing.  An integral
value prints without a fractional part; the exact float `repr` of a
non-integral value is abstracted as `n/d`. -/
def numCellStr : Option Q → String
  | none => "nan"
  | some q => if q.d = 1 then toString q.n else toString q.n ++ "/" ++ toString q.d

/-- Rendering of one categorical cell (`str(v)`; `str(nan) = "nan"`). -/
def catCellStr : Option String → String
  | none => "nan"
  | some s => s

/-- Model of `df[col].unique()` followed by `str` on each value: the distinct
cell values (missing included, as NaN) in first-seen order. -/
def uniqueCells : ColData → List String
  | .numeric vals => (dedupSeen [] vals).map numCellStr
  | .categorical vals => (dedupSeen [] vals).map catCellStr

/-- The unique-values answer (lines 181–188 of `csv_agent.py`): up to 20
values, with a remainder count past 20. -/
def uniqueValuesMsg (name : String) (col : ColData) : String :=
  let uv := uniqueCells col
  "Unique values in '" ++ name ++ "': " ++
    (if uv.length ≤ 20 then String.intercalate ", " uv
     else String.intercalate ", " (uv.take 20) ++ ", ... and " ++
       toString (uv.length - 20) ++ " more")

/-- Distinct non-missing value count (model of `col.nunique()`, which skips
NaN). -/
def nuniqueCount (vals : List (Option String)) : Nat :=
  (dedupSeen [] (vals.filterMap id)).length

/-- Model of `col.value_counts()`: the distinct non-missing values with their
multiplicities, sorted by count descending; ties keep first-seen order
(`insertionSort` with `b.2 ≤ a.2` is a stable descending sort). -/
def valueCounts (vals : List (Option String)) : List (String × Nat) :=
  List.insertionSort (fun a b => b.2 ≤ a.2)
    ((dedupSeen [] (vals.filterMap id)).map
      (fun v => (v, (vals.filterMap id).count v)))

/-- Newton iteration for a square-root approximation on exact rationals.
`describe()`'s standard deviation is a float square root; this embedding
replaces it by a fixed-depth Newton approximation (no claim depends on the
digits it produces). -/
def newtonSqrt : Nat → Q → Q → Q
  | 0, _, y => y
  | k + 1, x, y => newtonSqrt k x ((y.add (x.divQ y)).divNat 2)

/-- Square-root approximation used for the standard deviation. -/
def qSqrt (x : Q) : Q :=
  if decide (x.n ≤ 0) then Q.ofInt 0 else newtonSqrt 12 x (Q.ofInt (x.n.natAbs + 1))

/-- Mean of the non-missing cells (`none` when all cells are missing). -/
def meanO (vals : List (Option Q)) : Option Q :=
  let xs := nonMissing vals
  if xs.length = 0 then none else some ((qSum xs).divNat xs.length)

/-- Sample standard deviation (`describe()`'s `std`, `ddof = 1`): NaN when
fewer than two non-missing cells. -/
def stdO (vals : List (Option Q)) : Option Q :=
  let xs := nonMissing vals
  if xs.length < 2 then none
  else
    match meanO vals with
    | none => none
    | some mu =>
      some (qSqrt ((qSum (xs.map (fun x => (x.sub mu).mul (x.sub mu)))).divNat (xs.length - 1)))

/-- Insert into an ascending list by `Q.leB`. -/
def insertQ (x : Q) : List Q → List Q
  | [] => [x]
  | y :: ys => if Q.leB x y then x :: y :: ys else y :: insertQ x ys

/-- Ascending sort of rationals (for percentiles). -/
def sortQ (xs : List Q) : List Q := xs.foldr insertQ []

/-- Linear-interpolation percentile over the sorted non-missing cells (the
default interpolation of `describe()`'s quartiles); `none` on an empty
column. -/
def percentileO (vals : List (Option Q)) (p : Q) : Option Q :=
  let xs := sortQ (nonMissing vals)
  match xs with
  | [] => none
  | _ :: _ =>
    let pos : Q := p.mul (Q.ofInt (xs.length - 1))
    let i : Nat := pos.floorQ.toNat
    let frac : Q := pos.sub (Q.ofInt i)
    if i + 1 < xs.length then
      some ((xs.getD i (Q.ofInt 0)).add (frac.mul ((xs.getD (i + 1) (Q.ofInt 0)).sub (xs.getD i (Q.ofInt 0)))))
    else some (xs.getD i (Q.ofInt 0))

/-- The row-count phrase set (line 163 of `csv_agent.py`). -/
def rowCountPhrases : List String :=
  ["count rows", "how many rows", "number of rows", "row count"]

/-- The list-columns phrase set (line 167). -/
def listColumnPhrases : List String :=
  ["list columns", "what columns", "column names", "show columns"]

/-- The summary phrase set (line 171). -/
def summaryPhrases : List String :=
  ["summary statistics", "describe", "overview", "summary"]

/-- The aggregate operation tokens, in the order the code tries them
(line 192). -/
def aggOps : List String := ["sum", "mean", "average", "max", "min"]

/-- Model of `any(phrase in query_lower for phrase in phrases)`. -/
def matchesAny (ql : String) (phrases : List String) : Bool :=
  phrases.any (fun p => substrB p ql)

/-- Simplified rendering of one column's `describe(include='all')` block.
The tabular alignment of pandas `to_string()` is abstracted to a per-column
listing of the same statistics (count/unique/top/freq for a categorical
column, count/mean/std/min/quartiles/max for a numeric one);
no claim depends on this layout, only on which branch produces it. -/
def describeCol (name : String) (col : ColData) : String :=
  match col with
  | .numeric vals =>
    name ++ ": count " ++ toString (nonMissing vals).length ++
      ", mean " ++ fixed2O (meanO vals) ++
      ", std " ++ fixed2O (stdO vals) ++
      ", min " ++ fixed2O (qMinL (nonMissing vals)) ++
      ", 25% " ++ fixed2O (percentileO vals ⟨1, 4⟩) ++
      ", 50% " ++ fixed2O (percentileO vals ⟨1, 2⟩) ++
      ", 75% " ++ fixed2O (percentileO vals ⟨3, 4⟩) ++
      ", max " ++ fixed2O (qMaxL (nonMissing vals))
  | .categorical vals =>
    name ++ ": count " ++ toString (vals.filterMap id).length ++
      ", unique " ++ toString (nuniqueCount vals) ++
      ", top " ++
        (match (valueCounts vals).head? with
         | none => "nan"
         | some vc => vc.1) ++
      ", freq " ++
        (match (valueCounts vals).head? with
         | none => "nan"
         | some vc => toString vc.2)

/-- Model of `df.describe(include='all').to_string()`: every column's
statistics (see `describeCol` for the abstracted layout). -/
def describeAll (df : Dataset) : String :=
  String.intercalate "\n" (df.cols.map (fun c => describeCol c.1 c.2))

/-- The fallback help message of `query_csv_data` (lines 209–215). -/
def fallbackMsg (query : String) : String :=
  "I can help with queries like:\n" ++
  "- Count rows\n" ++
  "- List columns\n" ++
  "- Summary statistics\n" ++
  "- Show unique values in a column\n" ++
  "- Calculate sum/mean/max/min of a column\n\n" ++
  "Your query: '" ++ query ++ "' didn't match any of these patterns. Please rephrase."

/-- The core of `query_csv_data` (lines 160–215 of `csv_agent.py`), after the
dataframe has been loaded: lower-case the query and try the intents in the
fixed order row-count, list-columns, summary, unique-values, aggregate,
fallback, returning at the first match.  The unique-values and aggregate
branches scan `df.columns` in table order and return inside the loop, which
`List.find?` models; an aggregate operation whose token matches but finds no
numeric column returns its explicit failure message without trying later
tokens (the `return` on line 206 sits inside the operation loop). -/
def query_csv_data (df : Dataset) (query : String) : String :=
  let query_lower := lowerStr query
  if matchesAny query_lower rowCountPhrases then
    "The CSV file has " ++ toString df.nrows ++ " rows."
  else if matchesAny query_lower listColumnPhrases then
    "Columns in the CSV file: " ++ String.intercalate ", " df.columnNames
  else if matchesAny query_lower summaryPhrases then
    "Summary Statistics:\n\n" ++ describeAll df
  else if substrB "unique" query_lower then
    match df.cols.find? (fun c => substrB (lowerStr c.1) query_lower) with
    | some c => uniqueValuesMsg c.1 c.2
    | none => "Please specify which column to show unique values for."
  else
    match aggOps.find? (fun op => substrB op query_lower) with
    | some op =>
      match df.cols.find? (fun c => substrB (lowerStr c.1) query_lower && isNumericCol c.2) with
      | some c =>
        "The " ++ op ++ " of '" ++ c.1 ++ "' is: " ++
          fixed2O (aggValue op (match c.2 with
            | .numeric vals => vals
            | .categorical _ => []))
      | none => "Could not find a numeric column for " ++ op ++ " operation in the query."
    | none => fallbackMsg query

/-- The missing-values line of `analyze_csv_column` (lines 107–108): count and
percentage of the column length.  On a zero-length column the Python division
yields NaN; otherwise the percentage is exact. -/
def missingLine (missing total : Nat) : String :=
  "Missing values: " ++ toString missing ++ " (" ++
    (if total = 0 then "nan" else fixed2 ⟨(missing : Int) * 100, (total : Int)⟩) ++ "%)\n\n"

/-- The numeric branch of `analyze_csv_column` (lines 111–120). -/
def numericReport (vals : List (Option Q)) : String :=
  "Column Type: Numeric\n\n" ++
  "Mean: " ++ fixed2O (meanO vals) ++ "\n" ++
  "Standard Deviation: " ++ fixed2O (stdO vals) ++ "\n" ++
  "Min: " ++ fixed2O (qMinL (nonMissing vals)) ++ "\n" ++
  "25th Percentile (Q1): " ++ fixed2O (percentileO vals ⟨1, 4⟩) ++ "\n" ++
  "50th Percentile (Median): " ++ fixed2O (percentileO vals ⟨1, 2⟩) ++ "\n" ++
  "75th Percentile (Q3): " ++ fixed2O (percentileO vals ⟨3, 4⟩) ++ "\n" ++
  "Max: " ++ fixed2O (qMaxL (nonMissing vals)) ++ "\n"

/-- One line of the value-counts listing (line 128). -/
def vcLine (vc : String × Nat) : String :=
  "  " ++ vc.1 ++ ": " ++ toString vc.2 ++ "\n"

/-- The value-counts lines for a list of (value, count) pairs. -/
def vcLines (vcs : List (String × Nat)) : String :=
  String.join (vcs.map vcLine)

/-- The categorical branch of `analyze_csv_column` (lines 122–131):
distinct-value count, the ten most frequent values with counts, and — when
exactly ten lines were printed and more distinct values exist — a suffix with
the number of further distinct values. -/
def categoricalReport (vals : List (Option String)) : String :=
  "Column Type: Categorical\n\n" ++
  "Unique values: " ++ toString (nuniqueCount vals) ++ "\n\n" ++
  "Value counts:\n" ++
  vcLines ((valueCounts vals).take 10) ++
  (if ((valueCounts vals).take 10).length = 10 ∧ nuniqueCount vals > 10 then
    "  ... and " ++ toString (nuniqueCount vals - 10) ++ " more unique values\n"
  else "")

/-- The core of `analyze_csv_column` (lines 100–133), after the dataframe has
been loaded: unknown column names produce the error text listing the available
columns; otherwise the missing-value line is followed by the numeric or the
categorical report. -/
def analyze_csv_column (df : Dataset) (column_name : String) : String :=
  match df.cols.lookup column_name with
  | none =>
    "Error: Column '" ++ column_name ++ "' not found. Available columns: " ++
      String.intercalate ", " df.columnNames
  | some col =>
    "Analysis of column '" ++ column_name ++ "':\n\n" ++
    missingLine (missingCount col) (colLen col) ++
    (match col with
     | .numeric vals => numericReport vals
     | .categorical vals => categoricalReport vals)

/-- Simplified rendering of `df.head().to_string()`: the first five rows,
one comma-separated line per row (pandas' column alignment is abstracted;
no claim depends on this text). -/
def headRowsStr (df : Dataset) : String :=
  String.intercalate "\n"
    ((List.range (min 5 df.nrows)).map (fun i =>
      String.intercalate ", "
        (df.cols.map (fun c =>
          match c.2 with
          | .numeric vals => numCellStr (vals.getD i none)
          | .categorical vals => catCellStr (vals.getD i none)))))

/-- The success text of `read_csv_tool` (lines 71–76). -/
def csvInfoText (df : Dataset) : String :=
  "CSV File Information:\n" ++
  "Shape: " ++ toString df.nrows ++ " rows x " ++ toString df.ncols ++ " columns\n\n" ++
  "Column Names: " ++ String.intercalate ", " df.columnNames ++ "\n\n" ++
  "First 5 rows:\n" ++ headRowsStr df ++ "\n"

/-- The model of the file system seen by the backend: which paths exist
(`os.path.exists`) and what dataset a path parses to (`pd.read_csv`;
`parse? p = none` for a file that exists but is not valid CSV). -/
structure FsModel where
  pathExists : String → Bool
  parse? : String → Option Dataset

/-- The bundled demo file's path,
`os.path.join(os.path.dirname(__file__), "../finance.csv")` (the directory
prefix is irrelevant to the logic and dropped). -/
def demoPath : String := "../finance.csv"

/-- `_get_csv_path` (lines 40–53 of `csv_agent.py`): the demo path when the
given path is empty (`not file_path`) or does not exist, the given path
otherwise. -/
def _get_csv_path (fs : FsModel) (file_path : String) : String :=
  if file_path = "" ∨ fs.pathExists file_path = false then demoPath else file_path

/-- Model of `pd.read_csv`: an error (a raised exception's text) on a missing
or unparsable file.  The exception texts are modelled loosely; no claim
depends on them. -/
def pdReadCsv (fs : FsModel) (path : String) : Except String Dataset :=
  if fs.pathExists path = false then
    .error ("[Errno 2] No such file or directory: '" ++ path ++ "'")
  else
    match fs.parse? path with
    | some df => .ok df
    | none => .error ("Error tokenizing data in file '" ++ path ++ "'")

/-- `read_csv_tool` (lines 56–78): resolve the path, load, and render shape,
column names and preview; any exception becomes an ordinary error string. -/
def read_csv_tool (fs : FsModel) (file_path : String) : String :=
  match pdReadCsv fs (_get_csv_path fs file_path) with
  | .ok df => csvInfoText df
  | .error e => "Error reading CSV file: " ++ e

/-- The tool `analyze_csv_column` (lines 81–135): resolve the path, load, and
run the column analysis; any exception becomes an ordinary error string. -/
def analyze_csv_column_tool (fs : FsModel) (column_name : String) (file_path : String) : String :=
  match pdReadCsv fs (_get_csv_path fs file_path) with
  | .ok df => analyze_csv_column df column_name
  | .error e => "Error analyzing column: " ++ e

/-- The tool `query_csv_data` (lines 138–218): resolve the path, load, and
run the query resolver; any exception becomes an ordinary error string. -/
def query_csv_data_tool (fs : FsModel) (query : String) (file_path : String) : String :=
  match pdReadCsv fs (_get_csv_path fs file_path) with
  | .ok df => query_csv_data df query
  | .error e => "Error processing query: " ++ e

/-- One tool call requested by the model: name, argument mapping (string keys
to string values, modelling the JSON argument dict), and correlation id. -/
structure ToolCall where
  name : String
  args : List (String × String)
  id : String
deriving DecidableEq

/-- A conversation message (the subset of the langchain message types the
agent builds): system, human, assistant (with its requested tool calls), or
tool result (with the requesting call's id). -/
inductive Msg where
  | system (content : String)
  | human (content : String)
  | ai (content : String) (tool_calls : List ToolCall)
  | toolMsg (content : String) (tool_call_id : String)
deriving DecidableEq

/-- Is the message a `SystemMessage`? -/
def isSystemMsg : Msg → Bool
  | .system _ => true
  | _ => false

/-- The state of the LangGraph agent: the message sequence and the active
dataset path. -/
structure AgentState where
  messages : List Msg
  csv_file_path : String
deriving DecidableEq

/-- A model response: content plus requested tool calls. -/
structure AIResp where
  content : String
  tool_calls : List ToolCall
deriving DecidableEq

/-- The external completion service: the full message list in, either a
response or a raised `ModelServiceError` (its text) out. -/
def LlmModel : Type := List Msg → Except String AIResp

/-- The registered tool names, in registration order (`tools`, line 222). -/
def toolNames : List String := ["read_csv_tool", "analyze_csv_column", "query_csv_data"]

/-- Look up one argument with a default (the tools' optional `file_path`
defaults to `""`). -/
def getArg (args : List (String × String)) (key dflt : String) : String :=
  (args.lookup key).getD dflt

/-- Run a registered tool on its argument mapping (model of
`tool_func.invoke(tool_args_with_path)`).  A missing required argument is the
langchain validation exception, which `tool_node` does not catch (its text is
modelled loosely; no claim depends on it). -/
def toolRun (fs : FsModel) (name : String) (args : List (String × String)) : Except String String :=
  if name = "read_csv_tool" then
    .ok (read_csv_tool fs (getArg args "file_path" ""))
  else if name = "analyze_csv_column" then
    match args.lookup "column_name" with
    | some c => .ok (analyze_csv_column_tool fs c (getArg args "file_path" ""))
    | none => .error "validation error: column_name is a required argument"
  else if name = "query_csv_data" then
    match args.lookup "query" with
    | some q => .ok (query_csv_data_tool fs q (getArg args "file_path" ""))
    | none => .error "validation error: query is a required argument"
  else .error ("no tool named " ++ name)

/-- The argument injection of `tool_node` (lines 308–311): copy the call's
arguments and add the state's `file_path` only when the call did not supply
one. -/
def argsWithPath (args : List (String × String)) (csvPath : String) : List (String × String) :=
  if (args.lookup "file_path").isSome then args else args ++ [("file_path", csvPath)]

/-- Dispatch of one tool call (lines 302–314): a registered tool runs on the
path-injected arguments; an unregistered name synthesizes the not-found text
instead of failing. -/
def dispatchCall (fs : FsModel) (csvPath : String) (call : ToolCall) : Except String String :=
  if toolNames.contains call.name then
    toolRun fs call.name (argsWithPath call.args csvPath)
  else
    .ok ("Tool '" ++ call.name ++ "' not found.")

/-- Dispatch of a call list in order, pairing each result with its call id
(the loop of lines 302–315); an exception aborts the remaining calls. -/
def dispatchCalls (fs : FsModel) (csvPath : String) : List ToolCall → Except String (List Msg)
  | [] => .ok []
  | call :: rest =>
    match dispatchCall fs csvPath call with
    | .error e => .error e
    | .ok content =>
      match dispatchCalls fs csvPath rest with
      | .error e => .error e
      | .ok ms => .ok (Msg.toolMsg content call.id :: ms)

/-- `tool_node` (lines 295–318): when the last message carries tool calls,
append one tool-result message per call; otherwise return the state
unchanged. -/
def tool_node (fs : FsModel) (s : AgentState) : Except String AgentState :=
  match s.messages.getLast? with
  | some (Msg.ai _ calls) =>
    if calls.isEmpty then .ok s
    else
      match dispatchCalls fs s.csv_file_path calls with
      | .error e => .error e
      | .ok tms => .ok ⟨s.messages ++ tms, s.csv_file_path⟩
  | _ => .ok s

/-- The system instruction `agent_node` builds (lines 257–262); the Python
`csv_file_path or 'demo_data.csv (default)'` falls back on the empty
string. -/
def systemText (csvPath : String) : String :=
  "You are a helpful assistant that can analyze CSV files. " ++
  "You have access to tools to read CSV files, analyze specific columns, and query data. " ++
  "When a user asks about CSV data, use the appropriate tool to help them. " ++
  "The current CSV file path is: " ++
  (if csvPath = "" then "demo_data.csv (default)" else csvPath)

/-- Does the message sequence already begin with a system message? -/
def isSystemHead : List Msg → Bool
  | Msg.system _ :: _ => true
  | _ => false

/-- The message list `agent_node` sends to the model (lines 264–268): a fresh
system instruction is prepended only when the state does not already begin
with one. -/
def messagesWithSystem (csvPath : String) (msgs : List Msg) : List Msg :=
  if isSystemHead msgs then msgs else Msg.system (systemText csvPath) :: msgs

/-- `agent_node` (lines 253–279): call the model on the system-augmented
history and append the response to the original (non-augmented) state; a
model failure propagates. -/
def agent_node (llm : LlmModel) (s : AgentState) : Except String AgentState :=
  match llm (messagesWithSystem s.csv_file_path s.messages) with
  | .error e => .error e
  | .ok resp => .ok ⟨s.messages ++ [Msg.ai resp.content resp.tool_calls], s.csv_file_path⟩

/-- `should_continue` (lines 282–292): to the tools node when the last
message carries tool calls, otherwise end. -/
def should_continue (s : AgentState) : String :=
  match s.messages.getLast? with
  | some (Msg.ai _ calls) => if calls.isEmpty then "end" else "tools"
  | _ => "end"

/-- Outcome of one graph run: a final state, a raised exception's text, or
fuel exhaustion (the compiled graph imposes no iteration cap, so the Lean
embedding bounds the loop by explicit fuel; `outOfFuel` corresponds to a run
still looping). -/
inductive RunOutcome where
  | finished (s : AgentState)
  | raised (e : String)
  | outOfFuel (s : AgentState)
deriving DecidableEq

/-- The compiled graph (lines 320–344): enter at `agent`, route by
`should_continue` to `tools` or to the end, and loop from `tools` back to
`agent`.  Returns the outcome together with the list of message lists the
model was invoked on (one per `agent` round, in order). -/
def runGraphT (llm : LlmModel) (fs : FsModel) : Nat → AgentState → RunOutcome × List (List Msg)
  | 0, s => (.outOfFuel s, [])
  | fuel + 1, s =>
    let ms := messagesWithSystem s.csv_file_path s.messages
    match agent_node llm s with
    | .error e => (.raised e, [ms])
    | .ok s1 =>
      if should_continue s1 = "tools" then
        match tool_node fs s1 with
        | .error e => (.raised e, [ms])
        | .ok s2 =>
          let r := runGraphT llm fs fuel s2
          (r.1, ms :: r.2)
      else (.finished s1, [ms])

/-- The text of the final message (`final_message.content`; the `str(...)`
fallback for a non-AI final message is abstracted to the message's content,
a branch the graph cannot reach since every run ends on an AI message). -/
def msgContent : Msg → String
  | .system c => c
  | .human c => c
  | .ai c _ => c
  | .toolMsg c _ => c

/-- `run_agent` (lines 347–380): seed the state with the user message and the
active path (`csv_file_path or ""`), run the graph, and return the final
message's content; every raised exception is caught and returned as
`"Error running agent: ..."`.  `none` models a run that never terminates
(no Python counterpart: the loop is unbounded by design). -/
def run_agent (llm : LlmModel) (fs : FsModel) (fuel : Nat)
    (user_message : String) (csv_file_path : Option String) : Option String :=
  let s0 : AgentState := ⟨[Msg.human user_message], csv_file_path.getD ""⟩
  match (runGraphT llm fs fuel s0).1 with
  | .finished s =>
    some (match s.messages.getLast? with
          | some (Msg.ai c _) => c
          | some m => msgContent m
          | none => "")
  | .raised e => some ("Error running agent: " ++ e)
  | .outOfFuel _ => none

/-- The HTTP-level result of the `/api/chat` endpoint: a normal 200 response
body, or an `HTTPException` with status and detail. -/
inductive ChatOutcome where
  | response (text : String)
  | httpError (status : Nat) (detail : String)
deriving DecidableEq

/-- The 503 detail text of `chat` (lines 147–150 of `main.py`). -/
def agentNotConfiguredDetail : String :=
  "Agent is not configured. Please set AZURE_OPENAI_ENDPOINT, AZURE_OPENAI_API_KEY, and AZURE_OPENAI_DEPLOYMENT_NAME environment variables."

/-- The `chat` endpoint (lines 137–160 of `main.py`): 503 when the agent is
not configured; otherwise the `run_agent` result is wrapped in a normal
response.  (`run_agent` catches every exception internally, so the handler's
own 500 branch is unreachable through it.)  `none` again models a
non-terminating run. -/
def chat (agentConfigured : Bool) (llm : LlmModel) (fs : FsModel) (fuel : Nat)
    (current_csv_file : Option String) (message : String) : Option ChatOutcome :=
  if agentConfigured then
    match run_agent llm fs fuel message current_csv_file with
    | some r => some (ChatOutcome.response r)
    | none => none
  else some (ChatOutcome.httpError 503 agentNotConfiguredDetail)

/-- Helper: looking a key up past an appended single pair with a different
key is unchanged. -/
theorem lookup_append_single (args : List (String × String)) (k fp v : String)
    (hk : k ≠ fp) : (args ++ [(fp, v)]).lookup k = args.lookup k := by
  rw [List.lookup_append]
  have hbeq : (k == fp) = false := beq_eq_false_iff_ne.mpr hk
  simp [List.lookup_cons, hbeq]

/-- C2: when the dataset path is empty, omitted (the Python default is the
empty string), or names no existing file, each of the three tools resolves to
the bundled demo dataset and returns the same normal result it returns on the
demo file — no exception escapes and no path error is produced. -/
theorem fallback_demo_dataset (fs : FsModel) (df : Dataset)
    (hex : fs.pathExists demoPath = true) (hparse : fs.parse? demoPath = some df)
    (p : String) (hfall : p = "" ∨ fs.pathExists p = false) (c q : String) :
    read_csv_tool fs p = csvInfoText df ∧
    analyze_csv_column_tool fs c p = analyze_csv_column df c ∧
    query_csv_data_tool fs q p = query_csv_data df q := by
  have hpath : _get_csv_path fs p = demoPath := by
    unfold _get_csv_path
    rw [if_pos hfall]
  have hread : pdReadCsv fs (_get_csv_path fs p) = .ok df := by
    rw [hpath]
    simp [pdReadCsv, hex, hparse]
  refine ⟨?_, ?_, ?_⟩ <;>
    simp [read_csv_tool, analyze_csv_column_tool, query_csv_data_tool, hread]

/-- The demo dataset of the concrete instances. -/
def demoDf : Dataset :=
  ⟨[("age", ColData.numeric [some ⟨10, 1⟩, some ⟨20, 1⟩, some ⟨30, 1⟩]),
    ("city", ColData.categorical [some "NY", some "LA"])]⟩

/-- A file system holding only the demo file. -/
def fsDemo : FsModel :=
  ⟨fun p => p == demoPath, fun p => if p == demoPath then some demoDf else none⟩

/-- Witness for C2: the empty path and a nonexistent path both resolve every
tool to the demo dataset. -/
theorem fallback_demo_dataset_witness :
    (read_csv_tool fsDemo "" = csvInfoText demoDf ∧
      analyze_csv_column_tool fsDemo "age" "" = analyze_csv_column demoDf "age" ∧
      query_csv_data_tool fsDemo "count rows" "" = query_csv_data demoDf "count rows") ∧
    (read_csv_tool fsDemo "/tmp/missing.csv" = csvInfoText demoDf ∧
      analyze_csv_column_tool fsDemo "age" "/tmp/missing.csv" = analyze_csv_column demoDf "age" ∧
      query_csv_data_tool fsDemo "count rows" "/tmp/missing.csv" = query_csv_data demoDf "count rows") :=
  ⟨fallback_demo_dataset fsDemo demoDf (by decide) (by decide) "" (Or.inl rfl) "age" "count rows",
   fallback_demo_dataset fsDemo demoDf (by decide) (by decide) "/tmp/missing.csv"
     (Or.inr (by decide)) "age" "count rows"⟩

/-- An empty file system (no path exists). -/
def fsEmpty : FsModel := ⟨fun _ => false, fun _ => none⟩

/-- C8: the dispatcher injects the session's dataset path into a call's
arguments only when the call omitted `file_path`; a call that supplies
`file_path` is passed through entirely unchanged, no other supplied argument
is ever modified, and a registered tool is invoked on exactly the
path-injected argument list. -/
theorem path_injection_only_when_omitted (args : List (String × String)) (p : String) :
    ((args.lookup "file_path").isSome → argsWithPath args p = args) ∧
    (args.lookup "file_path" = none → argsWithPath args p = args ++ [("file_path", p)]) ∧
    (∀ k, k ≠ "file_path" → (argsWithPath args p).lookup k = args.lookup k) ∧
    (∀ (fs : FsModel) (name id0 : String), toolNames.contains name = true →
      dispatchCall fs p ⟨name, args, id0⟩ = toolRun fs name (argsWithPath args p)) := by
  refine ⟨?_, ?_, ?_, ?_⟩
  · intro h
    simp [argsWithPath, h]
  · intro h
    simp [argsWithPath, h]
  · intro k hk
    by_cases h : (args.lookup "file_path").isSome
    · simp [argsWithPath, h]
    · simp only [argsWithPath, h, if_false, Bool.false_eq_true]
      exact lookup_append_single args k "file_path" p hk
  · intro fs name id0 hreg
    unfold dispatchCall
    rw [if_pos hreg]

/-- Witness for C8: a call with an explicit path is untouched; one without
gets the session path appended; a non-path argument is preserved; the
dispatcher runs the registered tool on the injected arguments. -/
theorem path_injection_only_when_omitted_witness :
    (argsWithPath [("query", "count rows"), ("file_path", "x.csv")] "/d.csv" =
      [("query", "count rows"), ("file_path", "x.csv")]) ∧
    (argsWithPath [("query", "count rows")] "/d.csv" =
      [("query", "count rows"), ("file_path", "/d.csv")]) ∧
    ((argsWithPath [("query", "count rows")] "/d.csv").lookup "query" =
      [("query", "count rows")].lookup "query") ∧
    (dispatchCall fsEmpty "/d.csv" ⟨"query_csv_data", [("query", "count rows")], "7"⟩ =
      toolRun fsEmpty "query_csv_data" (argsWithPath [("query", "count rows")] "/d.csv")) :=
  ⟨(path_injection_only_when_omitted [("query", "count rows"), ("file_path", "x.csv")] "/d.csv").1
      (by decide),
   (path_injection_only_when_omitted [("query", "count rows")] "/d.csv").2.1 (by decide),
   (path_injection_only_when_omitted [("query", "count rows")] "/d.csv").2.2.1 "query" (by decide),
   (path_injection_only_when_omitted [("query", "count rows")] "/d.csv").2.2.2 fsEmpty
      "query_csv_data" "7" (by decide)⟩

/-- The text a successfully dispatched call contributes (arbitrary on a
raising call; only used under a no-raise hypothesis). -/
def dispatchOkText (fs : FsModel) (p : String) (call : ToolCall) : String :=
  match dispatchCall fs p call with
  | .ok r => r
  | .error _ => ""

/-- Helper: a call with an unregistered name always dispatches successfully,
to exactly the not-found text (lines 313-314 of `csv_agent.py`). -/
theorem dispatchCall_unknown (fs : FsModel) (p : String) (call : ToolCall)
    (h : call.name ∉ toolNames) :
    dispatchCall fs p call = Except.ok ("Tool '" ++ call.name ++ "' not found.") := by
  unfold dispatchCall
  rw [if_neg (by simpa using h)]

/-- Helper: when every call of a list dispatches without raising, the
dispatcher succeeds and returns one tool-result message per call, in order,
each carrying its call's id. -/
theorem dispatchCalls_all_ok (fs : FsModel) (p : String) :
    ∀ calls : List ToolCall,
      (∀ call ∈ calls, ∃ r, dispatchCall fs p call = Except.ok r) →
      dispatchCalls fs p calls =
        Except.ok (calls.map (fun c => Msg.toolMsg (dispatchOkText fs p c) c.id)) := by
  intro calls
  induction calls with
  | nil => intro _; rfl
  | cons call rest ih =>
    intro h
    obtain ⟨r, hr⟩ := h call (by simp)
    have hrest := ih (fun c hc => h c (by simp [hc]))
    have htext : dispatchOkText fs p call = r := by
      simp only [dispatchOkText, hr]
    simp only [dispatchCalls, hr, hrest, List.map_cons, htext]

/-- A model whose response pairs a registered call missing its required
argument with a call to the unregistered tool `foo`. -/
def llmBadArgs : LlmModel :=
  fun _ => .ok ⟨"", [⟨"query_csv_data", [], "1"⟩, ⟨"foo", [], "2"⟩]⟩

/-- Counterexample to C5 as stated: a model response containing a call to
the unregistered tool `foo` TOGETHER WITH a registered call that misses its
required argument makes the dispatch loop raise — `tool_node` propagates the
validation error, the run ends as `raised` after the single model round, and
`run_agent` returns the caught-exception string: no `Tool 'foo' not found.`
tool result is appended and the turn does not loop back to the model. -/
theorem unknown_tool_sibling_abort_counterexample :
    tool_node fsDemo
        ⟨[Msg.human "hi",
          Msg.ai "" [⟨"query_csv_data", [], "1"⟩, ⟨"foo", [], "2"⟩]], ""⟩ =
      Except.error "validation error: query is a required argument" ∧
    runGraphT llmBadArgs fsDemo 1 ⟨[Msg.human "hi"], ""⟩ =
      (RunOutcome.raised "validation error: query is a required argument",
       [[Msg.system (systemText ""), Msg.human "hi"]]) ∧
    run_agent llmBadArgs fsDemo 1 "hi" none =
      some "Error running agent: validation error: query is a required argument" :=
  ⟨rfl, rfl, rfl⟩

/-- C5 (amended): for every model response carrying tool calls, as long as
every registered-named call in it dispatches without raising (a call naming
an unregistered tool never raises), the dispatcher appends one tool-result
message per call in order — the one for each unregistered name having text
exactly `Tool '<name>' not found.` and that call's id — and the graph loops
back to the model instead of aborting. -/
theorem unknown_tool_continues (fs : FsModel) (p : String) (msgs : List Msg)
    (content : String) (calls : List ToolCall) (hne : calls ≠ [])
    (hsucc : ∀ call ∈ calls, call.name ∈ toolNames →
      ∃ r, toolRun fs call.name (argsWithPath call.args p) = Except.ok r) :
    (∀ call ∈ calls, call.name ∉ toolNames →
      dispatchOkText fs p call = "Tool '" ++ call.name ++ "' not found.") ∧
    (tool_node fs ⟨msgs ++ [Msg.ai content calls], p⟩ =
      .ok ⟨(msgs ++ [Msg.ai content calls]) ++
            calls.map (fun c => Msg.toolMsg (dispatchOkText fs p c) c.id), p⟩) ∧
    (∀ (llm : LlmModel) (fuel : Nat) (resp : AIResp),
      llm (messagesWithSystem p msgs) = .ok resp →
      resp.tool_calls = calls →
      runGraphT llm fs (fuel + 1) ⟨msgs, p⟩ =
        ((runGraphT llm fs fuel
            ⟨(msgs ++ [Msg.ai resp.content calls]) ++
              calls.map (fun c => Msg.toolMsg (dispatchOkText fs p c) c.id), p⟩).1,
         messagesWithSystem p msgs ::
          (runGraphT llm fs fuel
            ⟨(msgs ++ [Msg.ai resp.content calls]) ++
              calls.map (fun c => Msg.toolMsg (dispatchOkText fs p c) c.id), p⟩).2)) := by
  have hall : ∀ call ∈ calls, ∃ r, dispatchCall fs p call = Except.ok r := by
    intro call hc
    by_cases hreg : call.name ∈ toolNames
    · obtain ⟨r, hr⟩ := hsucc call hc hreg
      refine ⟨r, ?_⟩
      unfold dispatchCall
      rw [if_pos (by simpa using hreg)]
      exact hr
    · exact ⟨_, dispatchCall_unknown fs p call hreg⟩
  have hdc := dispatchCalls_all_ok fs p calls hall
  have hempf : calls.isEmpty = false := by
    cases calls with
    | nil => exact absurd rfl hne
    | cons a l => rfl
  refine ⟨?_, ?_, ?_⟩
  · intro call hc hu
    simp only [dispatchOkText, dispatchCall_unknown fs p call hu]
  · simp [tool_node, List.getLast?_concat, hempf, hdc]
  · intro llm fuel resp hllm hcalls
    have hag : agent_node llm ⟨msgs, p⟩ =
        .ok ⟨msgs ++ [Msg.ai resp.content calls], p⟩ := by
      simp [agent_node, hllm, hcalls]
    have hsc : should_continue ⟨msgs ++ [Msg.ai resp.content calls], p⟩ = "tools" := by
      simp [should_continue, List.getLast?_concat, hempf]
    have htool : tool_node fs ⟨msgs ++ [Msg.ai resp.content calls], p⟩ =
        .ok ⟨(msgs ++ [Msg.ai resp.content calls]) ++
              calls.map (fun c => Msg.toolMsg (dispatchOkText fs p c) c.id), p⟩ := by
      simp [tool_node, List.getLast?_concat, hempf, hdc]
    simp only [runGraphT, hag, hsc, htool]
    simp

/-- A model whose response pairs the unregistered tool `foo` with a
well-formed registered call. -/
def llmFooMix : LlmModel :=
  fun _ => .ok ⟨"", [⟨"foo", [], "1"⟩, ⟨"query_csv_data", [("query", "count rows")], "2"⟩]⟩

set_option maxRecDepth 16384 in
/-- Witness for C5's amended claim: a two-call response (unknown `foo` plus a
valid `query_csv_data` call) yields the not-found tool result for `foo`
correlated to its id, the ordinary result for the sibling, and the run
proceeds into the next agent round (out of fuel there, not raised). -/
theorem unknown_tool_continues_witness :
    runGraphT llmFooMix fsDemo 1 ⟨[Msg.human "hi"], ""⟩ =
      (RunOutcome.outOfFuel
        ⟨[Msg.human "hi",
          Msg.ai "" [⟨"foo", [], "1"⟩, ⟨"query_csv_data", [("query", "count rows")], "2"⟩],
          Msg.toolMsg "Tool 'foo' not found." "1",
          Msg.toolMsg "The CSV file has 3 rows." "2"], ""⟩,
       [[Msg.system (systemText ""), Msg.human "hi"]]) := by
  have h := unknown_tool_continues fsDemo "" [Msg.human "hi"] ""
    [⟨"foo", [], "1"⟩, ⟨"query_csv_data", [("query", "count rows")], "2"⟩]
    (by decide)
    (by
      intro call hc hreg
      simp only [List.mem_cons, List.not_mem_nil, or_false] at hc
      rcases hc with rfl | rfl
      · exact absurd hreg (by decide)
      · exact ⟨"The CSV file has 3 rows.", rfl⟩)
  have h4 := h.2.2 llmFooMix 0 ⟨"", [⟨"foo", [], "1"⟩,
    ⟨"query_csv_data", [("query", "count rows")], "2"⟩]⟩ rfl rfl
  simp only [Nat.zero_add] at h4
  rw [h4]
  decide

/-- A model that always fails (a raised `ModelServiceError`). -/
def llmFail : LlmModel := fun _ => .error "boom"

/-- Counterexample for C4: when the completion call fails, the chat endpoint
does NOT surface an HTTP failure — `run_agent` catches the exception and the
endpoint returns an ordinary 200 response whose body is the error-prefixed
answer string, contradicting the claim's "rather than being converted into an
ordinary answer string". -/
theorem model_error_counterexample :
    chat true llmFail fsEmpty 1 none "hi" =
      some (ChatOutcome.response "Error running agent: boom") := rfl

/-- C4 (amended): a completion-service failure terminates the turn with no
partial answer, but it is caught inside `run_agent` and converted into the
ordinary answer string `Error running agent: <detail>`, which the chat
endpoint returns as a normal response rather than as an HTTP error. -/
theorem model_error_becomes_answer_string (llm : LlmModel) (fs : FsModel) (n : Nat)
    (e m : String) (p : Option String) (hfail : ∀ ms, llm ms = .error e) :
    chat true llm fs (n + 1) p m =
      some (ChatOutcome.response ("Error running agent: " ++ e)) := by
  simp [chat, run_agent, runGraphT, agent_node, hfail]

/-- Witness for C4's amended claim: the always-failing model at fuel 3. -/
theorem model_error_becomes_answer_string_witness :
    chat true llmFail fsEmpty 3 none "hello" =
      some (ChatOutcome.response ("Error running agent: " ++ "boom")) :=
  model_error_becomes_answer_string llmFail fsEmpty 2 "boom" "hello" none (fun _ => rfl)

/-- C1: whenever the lowercased query contains one of the summary phrases and
matches no higher-priority phrase set (row-count, list-columns), the resolver
returns the full-table summary — whatever else the text contains (a real
column name, the word `unique`, an aggregate operation token): the summary
branch returns before the unique-values and aggregate branches are ever
examined. -/
theorem summary_intent_priority (df : Dataset) (q : String)
    (hrow : matchesAny (lowerStr q) rowCountPhrases = false)
    (hlist : matchesAny (lowerStr q) listColumnPhrases = false)
    (hsum : matchesAny (lowerStr q) summaryPhrases = true) :
    query_csv_data df q = "Summary Statistics:\n\n" ++ describeAll df := by
  simp [query_csv_data, hrow, hlist, hsum]

/-- Witness for C1: a query that contains a summary phrase together with a
real column name (`age`), the word `unique` and the aggregate token `sum`
still gets the full-table summary. -/
theorem summary_intent_priority_witness :
    (substrB "unique" (lowerStr "summary unique sum of age") = true ∧
     substrB "sum" (lowerStr "summary unique sum of age") = true ∧
     substrB (lowerStr "age") (lowerStr "summary unique sum of age") = true) ∧
    query_csv_data demoDf "summary unique sum of age" =
      "Summary Statistics:\n\n" ++ describeAll demoDf :=
  ⟨⟨by decide, by decide, by decide⟩,
   summary_intent_priority demoDf "summary unique sum of age" (by decide) (by decide) (by decide)⟩

/-- C6: a unique-values query (no higher-priority phrase matches, the text
contains `unique`, and some column is the first in table order whose
lowercased name occurs in the text) lists that column's distinct values in
first-seen order (`uniqueCells`): all of them, with no truncation suffix,
when there are at most 20, and exactly the first 20 followed by the count of
the remaining ones when there are more than 20. -/
theorem unique_values_listing (df : Dataset) (q name : String) (col : ColData)
    (hrow : matchesAny (lowerStr q) rowCountPhrases = false)
    (hlist : matchesAny (lowerStr q) listColumnPhrases = false)
    (hsum : matchesAny (lowerStr q) summaryPhrases = false)
    (huni : substrB "unique" (lowerStr q) = true)
    (hfind : df.cols.find? (fun c => substrB (lowerStr c.1) (lowerStr q)) = some (name, col)) :
    query_csv_data df q =
      "Unique values in '" ++ name ++ "': " ++
        (if (uniqueCells col).length ≤ 20 then String.intercalate ", " (uniqueCells col)
         else String.intercalate ", " ((uniqueCells col).take 20) ++ ", ... and " ++
           toString ((uniqueCells col).length - 20) ++ " more") := by
  simp [query_csv_data, hrow, hlist, hsum, huni, hfind, uniqueValuesMsg]

/-- A dataset with a numeric `age` column and a categorical `city` column
holding three distinct cities (the spec's end-to-end scenario). -/
def dfCity : Dataset :=
  ⟨[("age", ColData.numeric [some ⟨30, 1⟩, some ⟨40, 1⟩, some ⟨30, 1⟩, some ⟨50, 1⟩]),
    ("city", ColData.categorical [some "NY", some "LA", some "NY", some "SF"])]⟩

/-- A dataset whose column `b` has 25 distinct values. -/
def dfMany : Dataset :=
  ⟨[("b", ColData.categorical
      [some "b01", some "b02", some "b03", some "b04", some "b05", some "b06", some "b07",
       some "b08", some "b09", some "b10", some "b11", some "b12", some "b13", some "b14",
       some "b15", some "b16", some "b17", some "b18", some "b19", some "b20", some "b21",
       some "b22", some "b23", some "b24", some "b25"])]⟩

/-- Witness for C6: three distinct cities are listed in full with no
truncation suffix; 25 distinct values are cut to the first 20 plus a
`... and 5 more` count. -/
theorem unique_values_listing_witness :
    query_csv_data dfCity "show unique values in city" =
      "Unique values in 'city': NY, LA, SF" ∧
    query_csv_data dfMany "unique values of b" =
      "Unique values in 'b': b01, b02, b03, b04, b05, b06, b07, b08, b09, b10, b11, b12, b13, b14, b15, b16, b17, b18, b19, b20, ... and 5 more" := by
  have h1 := unique_values_listing dfCity "show unique values in city" "city"
    (ColData.categorical [some "NY", some "LA", some "NY", some "SF"])
    (by decide) (by decide) (by decide) (by decide) (by decide)
  have h2 := unique_values_listing dfMany "unique values of b" "b"
    (ColData.categorical
      [some "b01", some "b02", some "b03", some "b04", some "b05", some "b06", some "b07",
       some "b08", some "b09", some "b10", some "b11", some "b12", some "b13", some "b14",
       some "b15", some "b16", some "b17", some "b18", some "b19", some "b20", some "b21",
       some "b22", some "b23", some "b24", some "b25"])
    (by decide) (by decide) (by decide) (by decide) (by decide)
  rw [h1, h2]
  exact ⟨by decide, by decide⟩

/-- The spec's aggregate scenario: `age` holds 10, 20, 30. -/
def ageDf : Dataset :=
  ⟨[("age", ColData.numeric [some ⟨10, 1⟩, some ⟨20, 1⟩, some ⟨30, 1⟩])]⟩

/-- An `age` column with a missing value, for the skip-missing-values part of
the aggregate claim. -/
def ageMissingDf : Dataset :=
  ⟨[("age", ColData.numeric [some ⟨10, 1⟩, none, some ⟨20, 1⟩])]⟩

/-- C7: an aggregate query (no higher-priority intent matches, `op` is the
first matching operation token, and a numeric column is the first whose name
occurs in the text) returns that column's aggregate — computed by `aggValue`,
which skips missing values and takes mean = sum of present values / their
count — rendered to two decimal places; in particular `sum of age` over
10, 20, 30 is exactly `The sum of 'age' is: 60.00`, and the mean over
10, missing, 20 ignores the missing cell. -/
theorem aggregate_numeric_column (df : Dataset) (q op name : String)
    (vals : List (Option Q))
    (hrow : matchesAny (lowerStr q) rowCountPhrases = false)
    (hlist : matchesAny (lowerStr q) listColumnPhrases = false)
    (hsum : matchesAny (lowerStr q) summaryPhrases = false)
    (huni : substrB "unique" (lowerStr q) = false)
    (hop : aggOps.find? (fun o => substrB o (lowerStr q)) = some op)
    (hcol : df.cols.find? (fun c => substrB (lowerStr c.1) (lowerStr q) && isNumericCol c.2) =
      some (name, ColData.numeric vals)) :
    (query_csv_data df q =
      "The " ++ op ++ " of '" ++ name ++ "' is: " ++ fixed2O (aggValue op vals)) ∧
    query_csv_data ageDf "sum of age" = "The sum of 'age' is: 60.00" ∧
    query_csv_data ageMissingDf "mean of age" = "The mean of 'age' is: 15.00" := by
  refine ⟨?_, by decide, by decide⟩
  simp [query_csv_data, hrow, hlist, hsum, huni, hop, hcol]

/-- Witness for C7: the spec's `sum of age` scenario, derived through the
general theorem. -/
theorem aggregate_numeric_column_witness :
    query_csv_data ageDf "sum of age" = "The sum of 'age' is: 60.00" := by
  have h := (aggregate_numeric_column ageDf "sum of age" "sum" "age"
    [some ⟨10, 1⟩, some ⟨20, 1⟩, some ⟨30, 1⟩]
    (by decide) (by decide) (by decide) (by decide) (by decide) (by decide)).1
  rw [h]
  decide

/-- A dataset where the single-letter numeric column `a` is a substring of
the word `average` itself. -/
def c3df : Dataset :=
  ⟨[("a", ColData.numeric [some ⟨3, 1⟩]),
    ("city", ColData.categorical [some "NY"])]⟩

/-- Counterexample to C3 as stated: `city` is categorical and the query is
exactly `average of <col>` for it, yet the resolver returns a NUMERIC result,
not the no-matching-numeric-column message — the substring scan finds the
numeric column `a` inside the word `average`. -/
theorem categorical_average_counterexample :
    query_csv_data c3df "average of city" = "The average of 'a' is: 3.00" ∧
    query_csv_data c3df "average of city" ≠
      "Could not find a numeric column for average operation in the query." :=
  ⟨by decide, by decide⟩

/-- C3 (amended): for an `average of <col>` query naming a categorical
column, the aggregate branch returns the explicit
`Could not find a numeric column for average operation in the query.`
message — with no numeric result and no fall-through to the later `max`/`min`
tokens — provided no higher-priority intent phrase matches, neither of the
earlier tokens `sum`/`mean` occurs in the text, and no numeric column's
lowercased name occurs as a substring of the text. -/
theorem categorical_average_no_numeric_match (df : Dataset) (q cname : String)
    (cvals : List (Option String))
    (hrow : matchesAny (lowerStr q) rowCountPhrases = false)
    (hlist : matchesAny (lowerStr q) listColumnPhrases = false)
    (hsum : matchesAny (lowerStr q) summaryPhrases = false)
    (huni : substrB "unique" (lowerStr q) = false)
    (hnosum : substrB "sum" (lowerStr q) = false)
    (hnomean : substrB "mean" (lowerStr q) = false)
    (havg : substrB "average" (lowerStr q) = true)
    (hcat : (cname, ColData.categorical cvals) ∈ df.cols)
    (hnamed : substrB (lowerStr cname) (lowerStr q) = true)
    (hnonum : ∀ x ∈ df.cols, isNumericCol x.2 = true →
      substrB (lowerStr x.1) (lowerStr q) = false) :
    query_csv_data df q =
      "Could not find a numeric column for average operation in the query." := by
  have hop : aggOps.find? (fun o => substrB o (lowerStr q)) = some "average" := by
    simp [aggOps, List.find?_cons, hnosum, hnomean, havg]
  have hcol : df.cols.find?
      (fun c => substrB (lowerStr c.1) (lowerStr q) && isNumericCol c.2) = none := by
    rw [List.find?_eq_none]
    intro x hx
    simp only [Bool.and_eq_true, not_and]
    intro hsub hnum
    rw [hnonum x hx hnum] at hsub
    exact absurd hsub (by simp)
  simp [query_csv_data, hrow, hlist, hsum, huni, hop, hcol]

/-- A dataset whose numeric column's name (`score`) does not occur in the
query `average of city`. -/
def c3bDf : Dataset :=
  ⟨[("score", ColData.numeric [some ⟨5, 1⟩]),
    ("city", ColData.categorical [some "NY"])]⟩

/-- Witness for C3's amended claim. -/
theorem categorical_average_no_numeric_match_witness :
    query_csv_data c3bDf "average of city" =
      "Could not find a numeric column for average operation in the query." :=
  categorical_average_no_numeric_match c3bDf "average of city" "city" [some "NY"]
    (by decide) (by decide) (by decide) (by decide) (by decide) (by decide) (by decide)
    (by decide) (by decide) (by decide)

/-- The value-counts ordering relation: count descending. -/
instance : IsTotal (String × Nat) (fun a b => b.2 ≤ a.2) :=
  ⟨fun a b => le_total b.2 a.2⟩

instance : IsTrans (String × Nat) (fun a b => b.2 ≤ a.2) :=
  ⟨fun _ _ _ h1 h2 => le_trans h2 h1⟩

/-- Helper: `value_counts` has exactly one entry per distinct non-missing
value, so its length is `nunique`. -/
theorem valueCounts_length (cvals : List (Option String)) :
    (valueCounts cvals).length = nuniqueCount cvals := by
  simp [valueCounts, nuniqueCount, List.length_insertionSort]

/-- C9: on a categorical column the analyzer reports the missing-value count
and percentage, the distinct-value count, and the ten most frequent values
with their counts (`valueCounts` is sorted by count, descending), and it
appends the `... and N more unique values` suffix exactly when the column
has more than ten distinct values (the code's `len(value_counts) == 10 and
nunique > 10` test is equivalent to `nunique > 10`). -/
theorem categorical_column_stats (df : Dataset) (cname : String)
    (cvals : List (Option String))
    (hcol : df.cols.lookup cname = some (ColData.categorical cvals)) :
    (analyze_csv_column df cname =
      "Analysis of column '" ++ cname ++ "':\n\n" ++
      missingLine (missingCount (ColData.categorical cvals)) cvals.length ++
      "Column Type: Categorical\n\n" ++
      "Unique values: " ++ toString (nuniqueCount cvals) ++ "\n\n" ++
      "Value counts:\n" ++
      vcLines ((valueCounts cvals).take 10) ++
      (if nuniqueCount cvals > 10 then
        "  ... and " ++ toString (nuniqueCount cvals - 10) ++ " more unique values\n"
      else "")) ∧
    List.Sorted (fun a b : String × Nat => b.2 ≤ a.2) (valueCounts cvals) := by
  constructor
  · have hiff : (((valueCounts cvals).take 10).length = 10 ∧ nuniqueCount cvals > 10) ↔
        nuniqueCount cvals > 10 := by
      rw [List.length_take, valueCounts_length]
      constructor
      · rintro ⟨-, h⟩
        exact h
      · intro h
        exact ⟨by omega, h⟩
    simp only [analyze_csv_column, hcol, categoricalReport, colLen]
    rw [if_congr hiff rfl rfl]
    simp [String.append_assoc]
  · simp only [valueCounts]
    exact List.sorted_insertionSort _ _

set_option maxRecDepth 16384 in
/-- Witness for C9: the three-city column prints all three counts and no
suffix; a 25-distinct-value column prints ten counts and `... and 15 more
unique values`. -/
theorem categorical_column_stats_witness :
    analyze_csv_column dfCity "city" =
      "Analysis of column 'city':\n\nMissing values: 0 (0.00%)\n\nColumn Type: Categorical\n\nUnique values: 3\n\nValue counts:\n  NY: 2\n  LA: 1\n  SF: 1\n" ∧
    analyze_csv_column dfMany "b" =
      "Analysis of column 'b':\n\nMissing values: 0 (0.00%)\n\nColumn Type: Categorical\n\nUnique values: 25\n\nValue counts:\n  b01: 1\n  b02: 1\n  b03: 1\n  b04: 1\n  b05: 1\n  b06: 1\n  b07: 1\n  b08: 1\n  b09: 1\n  b10: 1\n  ... and 15 more unique values\n" := by
  have h1 := (categorical_column_stats dfCity "city"
    [some "NY", some "LA", some "NY", some "SF"] (by decide)).1
  have h2 := (categorical_column_stats dfMany "b"
    [some "b01", some "b02", some "b03", some "b04", some "b05", some "b06", some "b07",
     some "b08", some "b09", some "b10", some "b11", some "b12", some "b13", some "b14",
     some "b15", some "b16", some "b17", some "b18", some "b19", some "b20", some "b21",
     some "b22", some "b23", some "b24", some "b25"] (by decide)).1
  rw [h1, h2]
  exact ⟨by decide, by decide⟩

/-- Number of system messages in a message list. -/
def countSystem (msgs : List Msg) : Nat := msgs.countP (fun m => isSystemMsg m)

/-- Helper: every message produced by the dispatcher is a tool-result
message, never a system message. -/
theorem dispatchCalls_no_system (fs : FsModel) (p : String) :
    ∀ (calls : List ToolCall) (tms : List Msg),
      dispatchCalls fs p calls = .ok tms → ∀ t ∈ tms, isSystemMsg t = false := by
  intro calls
  induction calls with
  | nil =>
    intro tms h t ht
    simp [dispatchCalls] at h
    subst h
    simp at ht
  | cons call rest ih =>
    intro tms h t ht
    simp only [dispatchCalls] at h
    cases hd : dispatchCall fs p call with
    | error e => rw [hd] at h; exact absurd h (by simp)
    | ok content =>
      rw [hd] at h
      cases hr : dispatchCalls fs p rest with
      | error e => rw [hr] at h; exact absurd h (by simp)
      | ok ms =>
        rw [hr] at h
        have : Msg.toolMsg content call.id :: ms = tms := by
          simpa using h
        subst this
        rcases ht with _ | ⟨_, hmem⟩
        · rfl
        · exact ih ms hr t hmem

/-- Helper: `tool_node` neither adds nor removes system messages and keeps
the dataset path. -/
theorem tool_node_count_system (fs : FsModel) (s s2 : AgentState)
    (h : tool_node fs s = .ok s2) :
    countSystem s2.messages = countSystem s.messages ∧
      s2.csv_file_path = s.csv_file_path := by
  cases hlast : s.messages.getLast? with
  | none =>
    simp only [tool_node, hlast] at h
    cases h
    exact ⟨rfl, rfl⟩
  | some lastMsg =>
    cases lastMsg with
    | ai c calls =>
      simp only [tool_node, hlast] at h
      by_cases hemp : calls.isEmpty
      · rw [if_pos hemp] at h
        cases h
        exact ⟨rfl, rfl⟩
      · rw [if_neg hemp] at h
        cases hdc : dispatchCalls fs s.csv_file_path calls with
        | error e => rw [hdc] at h; exact absurd h (by simp)
        | ok tms =>
          rw [hdc] at h
          cases h
          constructor
          · show countSystem (s.messages ++ tms) = countSystem s.messages
            have hz2 : List.countP (fun m => isSystemMsg m) tms = 0 := by
              rw [List.countP_eq_zero]
              intro t htm
              simp [dispatchCalls_no_system fs s.csv_file_path calls tms hdc t htm]
            rw [countSystem, countSystem, List.countP_append, hz2]
            omega
          · rfl
    | system c =>
      simp only [tool_node, hlast] at h
      cases h
      exact ⟨rfl, rfl⟩
    | human c =>
      simp only [tool_node, hlast] at h
      cases h
      exact ⟨rfl, rfl⟩
    | toolMsg c i =>
      simp only [tool_node, hlast] at h
      cases h
      exact ⟨rfl, rfl⟩

/-- Helper: a message list with no system message does not start with one. -/
theorem isSystemHead_of_count_zero (msgs : List Msg) (h : countSystem msgs = 0) :
    isSystemHead msgs = false := by
  cases msgs with
  | nil => rfl
  | cons m rest =>
    cases m with
    | system c =>
      exfalso
      rw [countSystem, List.countP_cons] at h
      simp [isSystemMsg] at h
    | human c => rfl
    | ai c calls => rfl
    | toolMsg c i => rfl

/-- Helper: when the state holds no system message yet, `agent_node` sends
the model exactly the fresh system instruction followed by the state. -/
theorem messagesWithSystem_of_count_zero (p : String) (msgs : List Msg)
    (h : countSystem msgs = 0) :
    messagesWithSystem p msgs = Msg.system (systemText p) :: msgs := by
  unfold messagesWithSystem
  rw [isSystemHead_of_count_zero msgs h]
  simp

/-- Helper: the invariant of the agent/tool loop.  From any state holding no
system message, every message list the model is invoked on during the run
begins with the freshly built system instruction and contains exactly one
system message. -/
theorem runGraphT_trace_system (llm : LlmModel) (fs : FsModel) :
    ∀ (fuel : Nat) (s : AgentState), countSystem s.messages = 0 →
      ∀ ms ∈ (runGraphT llm fs fuel s).2,
        ms.head? = some (Msg.system (systemText s.csv_file_path)) ∧ countSystem ms = 1 := by
  intro fuel
  induction fuel with
  | zero =>
    intro s hz ms hms
    simp [runGraphT] at hms
  | succ n ih =>
    intro s hz ms hms
    have hzc : List.countP (fun m => isSystemMsg m) s.messages = 0 := hz
    have hws : messagesWithSystem s.csv_file_path s.messages =
        Msg.system (systemText s.csv_file_path) :: s.messages :=
      messagesWithSystem_of_count_zero s.csv_file_path s.messages hz
    have hms0 : (Msg.system (systemText s.csv_file_path) :: s.messages).head? =
          some (Msg.system (systemText s.csv_file_path)) ∧
        countSystem (Msg.system (systemText s.csv_file_path) :: s.messages) = 1 := by
      refine ⟨rfl, ?_⟩
      rw [countSystem, List.countP_cons, hzc]
      rfl
    simp only [runGraphT] at hms
    cases hllm : llm (messagesWithSystem s.csv_file_path s.messages) with
    | error e =>
      simp only [agent_node, hllm] at hms
      rw [hws] at hms
      simp at hms
      subst hms
      exact hms0
    | ok resp =>
      simp only [agent_node, hllm] at hms
      set s1 : AgentState :=
        ⟨s.messages ++ [Msg.ai resp.content resp.tool_calls], s.csv_file_path⟩ with hs1
      have hz1 : countSystem s1.messages = 0 := by
        rw [hs1]
        show countSystem (s.messages ++ [Msg.ai resp.content resp.tool_calls]) = 0
        rw [countSystem, List.countP_append, hzc]
        rfl
      by_cases hsc : should_continue s1 = "tools"
      · rw [if_pos hsc] at hms
        cases htn : tool_node fs s1 with
        | error e =>
          rw [htn] at hms
          rw [hws] at hms
          simp at hms
          subst hms
          exact hms0
        | ok s2 =>
          rw [htn] at hms
          rw [hws] at hms
          simp only [List.mem_cons] at hms
          rcases hms with hms | hms
          · subst hms
            exact hms0
          · have hpres := tool_node_count_system fs s1 s2 htn
            have := ih s2 (by rw [hpres.1]; exact hz1) ms hms
            rw [hpres.2] at this
            exact this
      · rw [if_neg hsc] at hms
        rw [hws] at hms
        simp at hms
        subst hms
        exact hms0

/-- C10: across every round of the agent/tool loop within one turn started by
`run_agent`'s initial state (one human message, no system message), the model
is invoked each time on a list that begins with the freshly built system
instruction and contains exactly one system message: the instruction is
prepended only for the call and never persisted, so repeated rounds never
accumulate duplicates. -/
theorem single_system_message_invariant (llm : LlmModel) (fs : FsModel) (fuel : Nat)
    (m p : String) (ms : List Msg)
    (hms : ms ∈ (runGraphT llm fs fuel ⟨[Msg.human m], p⟩).2) :
    ms.head? = some (Msg.system (systemText p)) ∧ countSystem ms = 1 :=
  runGraphT_trace_system llm fs fuel ⟨[Msg.human m], p⟩
    (by simp [countSystem, List.countP_cons, isSystemMsg]) ms hms

/-- A model that answers immediately with no tool calls. -/
def llmDone : LlmModel := fun _ => .ok ⟨"done", []⟩

set_option maxRecDepth 16384 in
/-- Witness for C10: in a one-round run the single model invocation receives
the fresh system instruction at the front and exactly one system message. -/
theorem single_system_message_invariant_witness :
    ([Msg.system (systemText ""), Msg.human "hi"].head? =
      some (Msg.system (systemText ""))) ∧
    countSystem [Msg.system (systemText ""), Msg.human "hi"] = 1 :=
  single_system_message_invariant llmDone fsEmpty 1 "hi" ""
    [Msg.system (systemText ""), Msg.human "hi"] (by decide)
